import Mathlib

/-!
Verification development for the python-netsnmpagent module
(src/netsnmpagent.py).  The definitions below are a shallow embedding of
the module's pure logic: the connection state machine driven by the
net-snmp log callback (_py_log_handler), start(), the numeric-only OID
parser (_prepareOID), the object registry (_objs, getContexts,
getRegistered, _prepareRegistration), the Table row engine (getRow,
addRow, _getOrAddRow, _getRow, _getIndices, deleteRow, setRowColumn,
clear) and the trap composer (snmp_pdu.add, send_trap).

Python strings are modelled as Lean String, Python ints as Lean Int
(arbitrary precision, as in Python), exceptions as Except results.
Behaviour of external net-snmp primitives that the claims depend on
(snprint_objid rendering of a table cell OID) is modelled from the
specification and marked as such in the doc comments.
-/

/-! ## Basic text helpers (List Char based, kernel-reducible) -/

/-- Does the character list `needle` occur contiguously inside `hay`?
Models the semantics of a regular expression fragment matching
somewhere inside the rest of a string. -/
def listContainsSeq (needle : List Char) : List Char → Bool
  | [] => needle.isEmpty
  | c :: rest => List.isPrefixOf needle (c :: rest) || listContainsSeq needle rest

/-- Prefix test on strings via character lists. -/
def strStartsWith (p s : String) : Bool :=
  List.isPrefixOf p.toList s.toList

/-- Does `needle` occur contiguously inside `s`? -/
def strContainsSeq (needle s : String) : Bool :=
  listContainsSeq needle.toList s.toList

/-- Drop `n` leading characters of a string (Python `s[n:]`). -/
def strDrop (s : String) (n : Nat) : String :=
  String.mk (s.toList.drop n)

/-- Keep the first `n` characters of a string (Python `s[0:n]`). -/
def strTake (s : String) (n : Nat) : String :=
  String.mk (s.toList.take n)

/-- First character of a string (Python `s[0]`); total with a dummy
result on the empty string, which no modelled code path reaches. -/
def strFront (s : String) : Char :=
  match s.toList with
  | [] => ' '
  | c :: _ => c

/-- Python `s.lower()` restricted to ASCII, which is all the callers use. -/
def strLower (s : String) : String :=
  String.mk (s.toList.map Char.toLower)

/-- Remove trailing linefeed characters: Python `msg.rstrip(b"\n")`. -/
def rstripNewlines (s : String) : String :=
  String.mk (((s.toList.reverse).dropWhile (fun c => c = '\n')).reverse)

/-- Python whitespace characters relevant to `int()` argument stripping. -/
def isPyWs (c : Char) : Bool :=
  c = ' ' || c = '\t' || c = '\n' || c = '\r' || c = '\x0b' || c = '\x0c'

/-- Strip leading and trailing whitespace from a character list. -/
def trimWsChars (l : List Char) : List Char :=
  ((l.dropWhile isPyWs).reverse.dropWhile isPyWs).reverse

/-- Parse a digit-and-underscore body as CPython's `int()` does after the
optional sign: underscores are allowed only singly and between digits.
`acc` is the value of the digits consumed so far. -/
def digitsCore : List Char → Nat → Option Nat
  | [], acc => some acc
  | '_' :: c :: rest, acc =>
      if c.isDigit then digitsCore rest (acc * 10 + (c.toNat - 48)) else none
  | ['_'], _ => none
  | c :: rest, acc =>
      if c.isDigit then digitsCore rest (acc * 10 + (c.toNat - 48)) else none

/-- Parse a nonempty all-digit (with grouping underscores) character list. -/
def parseDigits : List Char → Option Nat
  | [] => none
  | c :: rest => if c.isDigit then digitsCore rest (c.toNat - 48) else none

/-- Model of Python `int(s)` on ASCII text: strip whitespace, optional
single sign, nonempty digit string with optional grouping underscores.
`none` models a `ValueError`.  (Unicode digit forms are not modelled.) -/
def pyInt (s : String) : Option Int :=
  match trimWsChars s.toList with
  | '+' :: rest => (parseDigits rest).map (fun n => (n : Int))
  | '-' :: rest => (parseDigits rest).map (fun n => -(n : Int))
  | l => (parseDigits l).map (fun n => (n : Int))

/-- Python `str.split('.')`: split on every dot, keeping empty pieces;
the empty string yields one empty piece. -/
def splitDotChars : List Char → List (List Char)
  | [] => [[]]
  | '.' :: rest => [] :: splitDotChars rest
  | c :: rest =>
      match splitDotChars rest with
      | [] => [[c]]
      | g :: gs => (c :: g) :: gs

/-- Python `oidstr.split('.')` as a list of strings. -/
def pySplitDot (s : String) : List String :=
  (splitDotChars s.toList).map String.mk

/-- Join strings with a dot separator: Python `'.'.join(parts)`. -/
def joinDots : List String → String
  | [] => ""
  | [s] => s
  | s :: rest => s ++ "." ++ joinDots rest

/-- Python `bytes.replace(b'"', b'')`: remove every double-quote character. -/
def removeQuotes (s : String) : String :=
  String.mk (s.toList.filter (fun c => c ≠ '"'))

/-- Everything after the first dot: Python `s.split(b".", 1)[1]`.
`none` models the `IndexError` raised when the string has no dot. -/
def afterFirstDot : List Char → Option (List Char)
  | [] => none
  | '.' :: rest => some rest
  | _ :: rest => afterFirstDot rest

/-! ## Connection state machine (netsnmpAgentStatus, _py_log_handler) -/

/-- The five lifecycle states of `netsnmpAgentStatus` in the source. -/
inductive AgentStatus
  | REGISTRATION
  | FIRSTCONNECT
  | CONNECTFAILED
  | CONNECTED
  | RECONNECTING
deriving DecidableEq

/-- The eight net-snmp log priorities mapped by `_py_log_handler`. -/
inductive LogPriority
  | emerg | alert | crit | err | warning | notice | info | debug
deriving DecidableEq

/-- The `priorities` dictionary of `_py_log_handler`: textual label of a
log priority. -/
def LogPriority.label : LogPriority → String
  | .emerg => "Emergency"
  | .alert => "Alert"
  | .crit => "Critical"
  | .err => "Error"
  | .warning => "Warning"
  | .notice => "Notice"
  | .info => "Info"
  | .debug => "Debug"

/-- Model of `re.sub("^(Warning|Error): *", "", s)`: strip a leading severity
prefix together with the following run of spaces. -/
def stripSeverityHead (s : String) : String :=
  if strStartsWith "Warning:" s then
    String.mk ((s.toList.drop 8).dropWhile (fun c => c = ' '))
  else if strStartsWith "Error:" s then
    String.mk ((s.toList.drop 6).dropWhile (fun c => c = ' '))
  else s

/-- Model of `re.match("Failed to .* the agentx master agent.*", msgtext)`:
the text starts with "Failed to " and contains
" the agentx master agent" somewhere after that prefix. -/
def failMatch (s : String) : Bool :=
  strStartsWith "Failed to " s &&
    listContainsSeq " the agentx master agent".toList (s.toList.drop 10)

/-- Model of `re.match("AgentX subagent connected", msgtext)`: prefix match. -/
def connectedMatch (s : String) : Bool :=
  strStartsWith "AgentX subagent connected" s

/-- Model of `re.match("AgentX master disconnected us.*", msgtext)`: prefix match. -/
def disconnectedMatch (s : String) : Bool :=
  strStartsWith "AgentX master disconnected us" s

/-- Core of `_py_log_handler` after the priority label and the stripped
message text have been computed.  Returns the new agent status and the
event forwarded to the log sink (`LogHandler` if given, otherwise the
default stderr printer), or `none` when the message is suppressed.

The first guard reproduces the source condition
`msgprio == "Warning" or msgprio == "Error" and re.match(...)` with
Python's operator precedence: `or` binds looser than `and`, so every
Warning-priority message satisfies it regardless of its text. -/
def pyLogHandlerCore (st : AgentStatus) (msgprio msgtext : String) :
    AgentStatus × Option (String × String) :=
  if msgprio = "Warning" ∨ (msgprio = "Error" ∧ failMatch msgtext = true) then
    if st = .FIRSTCONNECT then
      (.CONNECTFAILED, none)
    else
      (st, some (msgprio, msgtext))
  else if msgprio = "Info" ∧ connectedMatch msgtext = true then
    (.CONNECTED, some (msgprio, msgtext))
  else if msgprio = "Info" ∧ disconnectedMatch msgtext = true then
    (.RECONNECTING, some (msgprio, msgtext))
  else
    (st, some (msgprio, msgtext))

/-- Model of `_py_log_handler` on a raw log event: strip trailing linefeeds and
the redundant severity prefix, then classify. -/
def pyLogHandler (st : AgentStatus) (prio : LogPriority) (raw : String) :
    AgentStatus × Option (String × String) :=
  pyLogHandlerCore st prio.label (stripSeverityHead (rstripNewlines raw))

/-- Model of `netsnmpAgent.start()`.  `initSnmpEvents` models the asynchronous
log events delivered by the external `init_snmp` call: it maps the
status at the time of the call to the status observed when `init_snmp`
returns.  An `Except.error` carries the exact message of the raised
`netsnmpAgentException`. -/
def startAgent (st : AgentStatus) (masterSocket : String)
    (initSnmpEvents : AgentStatus → AgentStatus) : Except String AgentStatus :=
  if st ≠ .CONNECTED ∧ st ≠ .RECONNECTING then
    let st1 := initSnmpEvents .FIRSTCONNECT
    if st1 = .CONNECTFAILED then
      .error ("Error connecting to snmpd instance at \"" ++ masterSocket ++
        "\" -- incorrect \"MasterSocket\" or snmpd not running?")
    else
      .ok st1
  else
    .ok st

/-! ## OID Codec: numeric-only mode of _prepareOID -/

/-- One component of a numeric OID string, as `_prepareOID` builds it:
`c_oid(int(x))`.  The `int()` call is repository code; the `c_oid`
conversion lives in netsnmpapi.py, which is not under src/.
Modelled from the spec: `c_oid` holds one unsigned OID component, and
numeric-only parsing "fails with InvalidOidError on any non-numeric or
negative component", so a negative value is rejected here. -/
def parseOidComponent (s : String) : Option Nat :=
  match pyInt s with
  | none => none
  | some n => if n < 0 then none else some n.toNat

/-- Evaluate the component parses of a list comprehension left to right,
failing as soon as one component fails (Python's exception semantics). -/
def traverseComponents : List String → Option (List Nat)
  | [] => some []
  | c :: rest =>
    match parseOidComponent c with
    | none => none
    | some v =>
      match traverseComponents rest with
      | none => none
      | some vs => some (v :: vs)

/-- Numeric-only branch of `netsnmpAgent._prepareOID` (UseMIBFiles off):
split the string on dots and parse every component; a failure raises
`netsnmpAgentException("Invalid OID (not using MIB): ...")`. -/
def prepareOIDNumeric (oidstr : String) : Except String (List Nat) :=
  match traverseComponents (pySplitDot oidstr) with
  | some parts => .ok parts
  | none => .error ("Invalid OID (not using MIB): " ++ oidstr)

/-! ## Object Registry (_objs, _prepareRegistration, getContexts,
getRegistered) -/

/-- Model of `self._objs = defaultdict(dict)`: a two-level mapping from context to
OID string to registered object, with Python dict insertion order.  The
object type is a parameter: the Python registry stores heterogeneous
scalar and table objects. -/
abbrev Registry (α : Type) : Type := List (String × List (String × α))

/-- Lookup in an association list with string keys (Python `d[k]` probe). -/
def assocFind {β : Type} (l : List (String × β)) (k : String) : Option β :=
  match l with
  | [] => none
  | (k', v) :: rest => if k' = k then some v else assocFind rest k

/-- Python dict assignment `d[k] = v`: overwrite in place, else append. -/
def assocSet {β : Type} (l : List (String × β)) (k : String) (v : β) :
    List (String × β) :=
  match l with
  | [] => [(k, v)]
  | (k', v') :: rest =>
    if k' = k then (k', v) :: rest else (k', v') :: assocSet rest k v

/-- Update the value stored under an existing key, keeping its position. -/
def assocUpdate {β : Type} (l : List (String × β)) (k : String) (f : β → β) :
    List (String × β) :=
  match l with
  | [] => []
  | (k', v) :: rest =>
    if k' = k then (k', f v) :: rest else (k', v) :: assocUpdate rest k f

/-- Model of `defaultdict.__getitem__`: return the inner dict for `ctx`, inserting
a fresh empty dict first when the context is unknown.  Returns the
(possibly grown) registry together with the inner dict that Python hands
back. -/
def registryGetDefault {α : Type} (r : Registry α) (ctx : String) :
    Registry α × List (String × α) :=
  match assocFind r ctx with
  | some objs => (r, objs)
  | none => (r ++ [(ctx, [])], [])

/-- Model of `self._objs[context][oidstr] = obj`. -/
def registrySet {α : Type} (r : Registry α) (ctx oidstr : String) (obj : α) :
    Registry α :=
  match assocFind r ctx with
  | some _ => assocUpdate r ctx (fun objs => assocSet objs oidstr obj)
  | none => r ++ [(ctx, [(oidstr, obj)])]

/-- Model of `netsnmpAgent.getContexts()`: the keys of the registry. -/
def getContexts {α : Type} (r : Registry α) : List String :=
  r.map Prod.fst

/-- Model of `netsnmpAgent.getRegistered(context)`: lists the objects registered
under one context.  The source renders each object as a type/value
dictionary; the claims only concern the registry state, so the stored
objects are returned as they are.  The `self._objs[context]` access uses
defaultdict semantics and can grow the registry. -/
def getRegistered {α : Type} (r : Registry α) (ctx : String) :
    Registry α × List (String × α) :=
  registryGetDefault r ctx

/-- Registration of a scalar or table object: the status guard and the
OID preparation of `netsnmpAgent._prepareRegistration`, then the
external engine registration calls, then the
`self._objs[context][oidstr] = obj` store performed by the per-vartype
wrapper and by `Table.__init__`.  The guard runs before anything else,
so a rejected registration leaves the registry untouched.  `oidParse`
stands for the outcome of `_prepareOID` on `oidstr` (external MIB
resolution in symbolic mode, `prepareOIDNumeric` in numeric mode).
`engineReg` stands for the combined outcome of the external engine
calls made after the OID preparation and before the store -- for a
scalar `netsnmp_register_watched_scalar` (a non-zero result raises
"Error registering variable with net-snmp!") and the optional handler
injection, for a table the default-row and
`netsnmp_register_table_data_set` calls -- each of which raises before
the store, so a failing engine call also leaves the registry untouched.
Returns the post-call registry and the call outcome. -/
def registerObj {α : Type} (st : AgentStatus) (r : Registry α)
    (ctx oidstr : String) (obj : α) (oidParse : Except String (List Nat))
    (engineReg : Except String Unit) :
    Registry α × Except String Unit :=
  if st ≠ .REGISTRATION then
    (r, .error "Attempt to register SNMP object after agent has been started!")
  else
    match oidParse with
    | .error e => (r, .error e)
    | .ok _ =>
      match engineReg with
      | .error e => (r, .error e)
      | .ok _ => (registrySet r ctx oidstr obj, .ok ())

/-- The registry-touching operations an application can perform. -/
inductive RegistryOp (α : Type)
  | register (st : AgentStatus) (ctx oidstr : String) (obj : α)
      (oidParse : Except String (List Nat)) (engineReg : Except String Unit)
  | getReg (ctx : String)

/-- Apply one registry operation, keeping only the registry state. -/
def applyRegistryOp {α : Type} (r : Registry α) : RegistryOp α → Registry α
  | .register st ctx oidstr obj p er => (registerObj st r ctx oidstr obj p er).1
  | .getReg ctx => (getRegistered r ctx).1

/-- Is an `Except` value a success? -/
def isOkE {ε β : Type} : Except ε β → Bool
  | .ok _ => true
  | .error _ => false

/-- The context (if any) that an operation inserts into the registry when
it is not already present: a registration that succeeds outright --
status guard, OID parse and engine registration all pass, so the store
at the end is reached -- or any `getRegistered` lookup. -/
def touchedContext {α : Type} : RegistryOp α → Option String
  | .register st ctx _ _ p er =>
    if st = .REGISTRATION ∧ isOkE p = true ∧ isOkE er = true then some ctx else none
  | .getReg ctx => some ctx

/-! ## Table Engine (netsnmpAgent.Table) -/

/-- A value of a table index column, as held by the index VarType
objects: the integer kinds carry a Python int, the octet-string kind a
text value. -/
inductive IdxVal
  | intV (n : Int)
  | strV (s : String)
deriving DecidableEq

/-- A Python value that `Table._getIndices` can return: the row index
text converted to an int when `int()` succeeds on it, otherwise the
quote-stripped text. -/
inductive PyVal
  | pInt (n : Int)
  | pStr (s : String)
deriving DecidableEq

/-- The exceptions the table methods can raise: a bare `IndexError`
from subscripting an empty list, or a `netsnmpAgentException` carrying
its message. -/
inductive PyErr
  | indexError
  | agentError (msg : String)
deriving DecidableEq

/-- One table row: its index VarType values and its per-column stored
data (`netsnmp_set_row_column` storage, column number to value). -/
structure TableRow where
  indexes : List IdxVal
  cells : List (Nat × IdxVal)
deriving DecidableEq

/-- The table-facing state: the dataset's row list in traversal order
and, when the table was built with a `counterobj`, that Scalar's
externalized value (`counterobj.value()`).  `Table.__init__` runs
`counterobj.update(0)`, so a fresh table with a counter starts at
`some 0`. -/
structure TableState where
  rows : List TableRow
  counterobj : Option Int
deriving DecidableEq

/-- Python `str(x)` on an index value as `Table._getRow` computes its
`matchStr`: integers render in decimal; for values passed as plain
Python data the text is used as is (the `str(x._cvar.value)` VarType
branch agrees with this for the integer kinds). -/
def pyStrIdx : IdxVal → String
  | .intV n => toString n
  | .strV s => s

/-- Model of `'.'.join(str(x) for x in indices)` of `Table._getRow`. -/
def matchStrOf (idxs : List IdxVal) : String :=
  joinDots (idxs.map pyStrIdx)

/-- Modelled from the spec: the canonical rendering of one index
component inside the `snprint_objid` output, "exactly as canonical
display tooling renders composite table indexes: integers render as
decimal digits joined by `.`; string-typed index components render as
their OID-packed byte sequence decoded back to text with surrounding
quote characters" (the quotes are still present here; `_getIndices`
strips them afterwards). -/
def renderIdxComponent : IdxVal → String
  | .intV n => toString n
  | .strV s => "\"" ++ s ++ "\""

/-- Modelled from the spec: the index portion of the `snprint_objid`
rendering of a row's full cell OID. -/
def renderIndexPart (idxs : List IdxVal) : String :=
  joinDots (idxs.map renderIdxComponent)

/-- Modelled from the spec: the symbolic rendering of the prefix
`rootoid ++ [1, column]` that `_getIndices` fakes before the index
portion.  `snprint_objid` in the default output format renders it as
`MODULE::symbol`, which contains no dot; only its dot-freeness matters
to the code, which discards everything left of the first dot. -/
def symbolicColumnText : String := "NETSNMPAGENT-MIB::exampleColumn2"

/-- Model of `Table._getIndices` up to the `split(b".", 1)[1]` step: the text
of the row's index portion as rendered by `snprint_objid`. -/
def getIndicesRaw (idxs : List IdxVal) : String :=
  match afterFirstDot (symbolicColumnText ++ "." ++ renderIndexPart idxs).toList with
  | some rest => String.mk rest
  | none => ""

/-- Model of `Table._getIndices` on a non-null row: try `int(indices)` on the
index text; on `ValueError` fall back to the text with the double
quotes removed.  The result is an int for a single integer index and a
string otherwise. -/
def getIndicesVal (idxs : List IdxVal) : PyVal :=
  match pyInt (getIndicesRaw idxs) with
  | some n => .pInt n
  | none => .pStr (removeQuotes (getIndicesRaw idxs))

/-- Python `matchStr == rowIndices` where `matchStr` is a str and
`rowIndices` the `_getIndices` result: equality between a str and an
int is always false in Python. -/
def pyEqStrVal (s : String) : PyVal → Bool
  | .pInt _ => false
  | .pStr t => s = t

/-- Model of `Table._getRow(indices)`: subscripting an empty index list raises
`IndexError`; otherwise scan the rows in order and return the first row
whose `_getIndices` text equals `matchStr`, or `none` (a null row
pointer) when the scan falls off the end. -/
def Table.getRowScan (t : TableState) (indices : List IdxVal) :
    Except PyErr (Option TableRow) :=
  match indices with
  | [] => .error .indexError
  | _ :: _ =>
    .ok (t.rows.find? (fun r => pyEqStrVal (matchStrOf indices) (getIndicesVal r.indexes)))

/-- Model of `Table.addRow(idxobjs)` via `_getOrAddRow`: build a row from the
schema defaults (no cells explicitly stored yet), add it to the dataset
and bump the row counter if one was configured.  No duplicate-index
check is performed. -/
def Table.addRow (t : TableState) (idxobjs : List IdxVal) : TableState :=
  { rows := t.rows ++ [{ indexes := idxobjs, cells := [] }],
    counterobj := t.counterobj.map (· + 1) }

/-- Model of `Table.getRow(idxobjs)`: resolve via `_getRow`;
`TableRow._fromExistingRow` raises `netsnmpAgentException("Row not
found!")` on a null row. -/
def Table.getRow (t : TableState) (idxobjs : List IdxVal) :
    Except PyErr TableRow :=
  match Table.getRowScan t idxobjs with
  | .error e => .error e
  | .ok none => .error (.agentError "Row not found!")
  | .ok (some r) => .ok r

/-- Remove the first row satisfying the predicate, keeping the rest. -/
def eraseFirstFound (p : TableRow → Bool) : List TableRow → List TableRow
  | [] => []
  | r :: rest => if p r then rest else r :: eraseFirstFound p rest

/-- Replace the first row satisfying the predicate by `f` of it. -/
def updateFirstFound (p : TableRow → Bool) (f : TableRow → TableRow) :
    List TableRow → List TableRow
  | [] => []
  | r :: rest => if p r then f r :: rest else r :: updateFirstFound p f rest

/-- Model of `Table.deleteRow(indices)`: resolve via `_getRow`; when a row is
found, remove it and decrement the counter; when none is found, do
nothing. -/
def Table.deleteRow (t : TableState) (indices : List IdxVal) :
    Except PyErr TableState :=
  match Table.getRowScan t indices with
  | .error e => .error e
  | .ok none => .ok t
  | .ok (some _) =>
    .ok { rows := eraseFirstFound
            (fun r => pyEqStrVal (matchStrOf indices) (getIndicesVal r.indexes)) t.rows,
          counterobj := t.counterobj.map (· - 1) }

/-- Model of `Table.clear()`: delete every row and reset the counter to 0. -/
def Table.clear (t : TableState) : TableState :=
  { rows := [], counterobj := t.counterobj.map (fun _ => 0) }

/-- Python `repr` of one index value, for the `setRowColumn` message. -/
def pyReprIdx : IdxVal → String
  | .intV n => toString n
  | .strV s => "'" ++ s ++ "'"

/-- Join strings with `", "`, as Python renders list elements. -/
def joinCommas : List String → String
  | [] => ""
  | [s] => s
  | s :: rest => s ++ ", " ++ joinCommas rest

/-- Python `str([...])` of the index list, used only inside the
`setRowColumn` error message. -/
def pyReprIdxList (idxs : List IdxVal) : String :=
  "[" ++ joinCommas (idxs.map pyReprIdx) ++ "]"

/-- Python dict assignment with a Nat key, for the per-row cell store. -/
def assocSetNat (l : List (Nat × IdxVal)) (k : Nat) (v : IdxVal) :
    List (Nat × IdxVal) :=
  match l with
  | [] => [(k, v)]
  | (k', v') :: rest =>
    if k' = k then (k', v) :: rest else (k', v') :: assocSetNat rest k v

/-- Model of `Table.setRowColumn(indices, colIdx, snmpobj)`: re-resolve the row
via `_getRow`, raise when it is not found, otherwise store the value
under the column (`netsnmp_set_row_column`, which the model lets
succeed; a non-zero result would raise). -/
def Table.setRowColumn (t : TableState) (indices : List IdxVal)
    (colIdx : Nat) (v : IdxVal) : Except PyErr TableState :=
  match Table.getRowScan t indices with
  | .error e => .error e
  | .ok none =>
    .error (.agentError
      ("setRowColumn() failed to find row for indices " ++ pyReprIdxList indices ++ "!"))
  | .ok (some _) =>
    let newRows := updateFirstFound
      (fun r => pyEqStrVal (matchStrOf indices) (getIndicesVal r.indexes))
      (fun r => { r with cells := assocSetNat r.cells colIdx v }) t.rows
    .ok { t with rows := newRows }

/-- The row-store operations of the table engine as driven by
application code; a `deleteRow` that raises leaves the state unchanged
(the exception propagates before any mutation). -/
inductive TableOp
  | addOp (idxs : List IdxVal)
  | delOp (idxs : List IdxVal)
  | clearOp
deriving DecidableEq

/-- Apply one table operation to the table state. -/
def Table.applyOp (t : TableState) : TableOp → TableState
  | .addOp i => Table.addRow t i
  | .delOp i =>
    match Table.deleteRow t i with
    | .ok t' => t'
    | .error _ => t
  | .clearOp => Table.clear t

/-- Run a sequence of table operations. -/
def Table.runOps (t : TableState) (ops : List TableOp) : TableState :=
  ops.foldl Table.applyOp t

/-! ## Trap Composer (snmp_pdu.add, send_trap) -/

/-- Model of `snmp_pdu._humanToASNtype`: map a type name to the single type
character `snmp_add_var` expects.  `none` models the Python `None`
argument.  The `varTypeL[0:4] == 'uinteger'` comparison of the source
compares a 4-character slice with an 8-character literal and is
therefore never true; it is reproduced as written. -/
def humanToASNtype (varType : Option String) : Char :=
  let v := match varType with
    | none => "="
    | some t => t
  if v.toList.length > 1 then
    let l := strLower v
    if strTake l 3 = "hex" then 'x'
    else if strTake l 3 = "obj" ∨ strTake l 3 = "oid" then 'o'
    else if strTake l 4 = "uinteger" then '3'
    else if l = "gauge" ∨ l = "unsigned32" then 'u'
    else if strTake l 2 = "ip" then 'a'
    else if strTake l 3 = "dec" then 'd'
    else if l = "counter64" then 'C'
    else if l = "integer" ∨ l = "integer32" then 'i'
    else if strFront v = 'B' then 'b'
    else strFront v
  else strFront v

/-- Model of `snmp_pdu.add(varOID, varData, varType)`.  `engine` models
`snmp_add_var`: the result code of adding the given (oid, data, type
char) to the PDU's variable list.  Returns the final result code
together with the list of type characters the engine was called with:
a failing call with a specific type is retried once with the
autodetect type `'='`; a failing autodetect call stops the loop. -/
def pduAdd (engine : String → String → Char → Nat) (varOID varData : String)
    (varType : Option String) : Nat × List Char :=
  let vt := humanToASNtype varType
  let r1 := engine varOID varData vt
  if r1 = 0 then (r1, [vt])
  else if vt = '=' then (r1, [vt])
  else (engine varOID varData '=', [vt, '='])

/-- One entry of the `traps` list handed to `send_trap`: a Python dict
that may or may not carry the 'oid', 'val' and 'type' keys. -/
structure TrapEntry where
  oid : Option String
  val : Option String
  vtype : Option String
deriving DecidableEq

/-- The entry loop of `send_trap`: a missing 'oid' or 'val' key raises
immediately; otherwise the entry is added to the PDU and the result of
`pdu.add` is discarded. -/
def addTrapEntries (engine : String → String → Char → Nat) :
    List TrapEntry → Except String Unit
  | [] => .ok ()
  | e :: rest =>
    match e.oid with
    | none => .error "missing 'oid' key in trap list!"
    | some vo =>
      match e.val with
      | none => .error "missing 'val' key in trap list!"
      | some vd =>
        let _ := pduAdd engine vo vd e.vtype
        addTrapEntries engine rest

/-- The SNMPv2/v3 branch of `netsnmpAgent.send_trap` (a trap OID was
given): add the optional uptime (result discarded), add the trap OID
(a non-zero result raises), then add the entries and hand the variable
list to the external `send_v2trap`/`send_v3trap`.  An `Except.ok`
means `send_trap` returned without raising. -/
def sendTrapV2 (engine : String → String → Char → Nat) (oid : String)
    (traps : List TrapEntry) (uptime : Option String) : Except String Unit :=
  let _ := uptime.map (fun up => pduAdd engine "SNMPv2-MIB::sysUpTime.0" up (some "t"))
  let r := pduAdd engine "SNMPv2-MIB::snmpTrapOID.0" oid (some "=")
  if r.1 ≠ 0 then .error ("Failed to add " ++ oid ++ " as snmpTrapOID!")
  else addTrapEntries engine traps

/-! ## Supporting lemmas -/

/-- A component-list traversal fails exactly when some component fails. -/
theorem traverseComponents_eq_none_iff (cs : List String) :
    traverseComponents cs = none ↔ ∃ c ∈ cs, parseOidComponent c = none := by
  induction cs with
  | nil => simp [traverseComponents]
  | cons c rest ih =>
    simp only [traverseComponents]
    cases hc : parseOidComponent c with
    | none => simp [hc]
    | some v =>
      cases ht : traverseComponents rest with
      | none =>
        simp only [List.mem_cons]
        constructor
        · intro _
          obtain ⟨c', hc', hn⟩ := ih.mp ht
          exact ⟨c', Or.inr hc', hn⟩
        · intro _; trivial
      | some vs =>
        simp only [List.mem_cons]
        constructor
        · intro h; cases h
        · rintro ⟨c', hc' | hc', hn⟩
          · subst hc'; rw [hc] at hn; cases hn
          · have : traverseComponents rest = none := ih.mpr ⟨c', hc', hn⟩
            rw [this] at ht; cases ht

/-- A successful traversal yields one value per component. -/
theorem traverseComponents_length (cs : List String) (l : List Nat)
    (h : traverseComponents cs = some l) : l.length = cs.length := by
  induction cs generalizing l with
  | nil => simp [traverseComponents] at h; simp [← h]
  | cons c rest ih =>
    simp only [traverseComponents] at h
    cases hc : parseOidComponent c with
    | none => rw [hc] at h; cases h
    | some v =>
      rw [hc] at h
      cases ht : traverseComponents rest with
      | none => rw [ht] at h; cases h
      | some vs =>
        rw [ht] at h
        cases h
        simp [ih vs ht]

/-- Lookup misses: `assocFind` misses exactly the keys outside the association list. -/
theorem assocFind_eq_none_iff {β : Type} (l : List (String × β)) (k : String) :
    assocFind l k = none ↔ k ∉ l.map Prod.fst := by
  induction l with
  | nil => simp [assocFind]
  | cons p rest ih =>
    obtain ⟨k', v⟩ := p
    simp only [assocFind, List.map_cons, List.mem_cons]
    by_cases hk : k' = k
    · subst hk
      simp
    · rw [if_neg hk]
      rw [ih]
      constructor
      · intro h hmem
        rcases hmem with h1 | h1
        · exact hk h1.symm
        · exact h h1
      · intro h h1
        exact h (Or.inr h1)

/-- Updating the value under an existing key keeps the key sequence. -/
theorem assocUpdate_map_fst {β : Type} (l : List (String × β)) (k : String)
    (f : β → β) : (assocUpdate l k f).map Prod.fst = l.map Prod.fst := by
  induction l with
  | nil => rfl
  | cons p rest ih =>
    obtain ⟨k', v⟩ := p
    simp only [assocUpdate]
    by_cases hk : k' = k
    · rw [if_pos hk]; simp
    · rw [if_neg hk]; simp [ih]

/-- Storing `self._objs[context][oidstr] = obj` adds `context` to the key list
exactly when it was absent, appending it at the end. -/
theorem getContexts_registrySet {α : Type} (r : Registry α) (ctx oidstr : String)
    (obj : α) :
    getContexts (registrySet r ctx oidstr obj) =
      if ctx ∈ getContexts r then getContexts r else getContexts r ++ [ctx] := by
  unfold registrySet
  cases hf : assocFind r ctx with
  | none =>
    have hmem : ctx ∉ getContexts r := (assocFind_eq_none_iff r ctx).mp hf
    rw [if_neg hmem]
    simp [getContexts]
  | some objs =>
    have hmem : ctx ∈ getContexts r := by
      by_contra hmem
      have hnone : assocFind r ctx = none := (assocFind_eq_none_iff r ctx).mpr hmem
      rw [hf] at hnone; cases hnone
    rw [if_pos hmem]
    exact assocUpdate_map_fst r ctx _

/-- A `defaultdict` access adds the key exactly when it was absent. -/
theorem getContexts_registryGetDefault {α : Type} (r : Registry α) (ctx : String) :
    getContexts (registryGetDefault r ctx).1 =
      if ctx ∈ getContexts r then getContexts r else getContexts r ++ [ctx] := by
  unfold registryGetDefault
  cases hf : assocFind r ctx with
  | none =>
    have hmem : ctx ∉ getContexts r := (assocFind_eq_none_iff r ctx).mp hf
    rw [if_neg hmem]
    simp [getContexts]
  | some objs =>
    have hmem : ctx ∈ getContexts r := by
      by_contra hmem
      have hnone : assocFind r ctx = none := (assocFind_eq_none_iff r ctx).mpr hmem
      rw [hf] at hnone; cases hnone
    rw [if_pos hmem]

/-- Removing the first row found by `find?` shortens the list by one. -/
theorem eraseFirstFound_length (p : TableRow → Bool) (l : List TableRow)
    (r : TableRow) (h : l.find? p = some r) :
    (eraseFirstFound p l).length + 1 = l.length := by
  induction l with
  | nil => cases h
  | cons a rest ih =>
    by_cases hp : p a
    · simp [eraseFirstFound, hp]
    · rw [List.find?_cons_of_neg _ hp] at h
      simp only [eraseFirstFound, hp, Bool.false_eq_true, if_false, List.length_cons]
      rw [ih h]

/-- One table operation preserves "the row counter equals the number of
stored rows": `addRow` appends and increments, `deleteRow` decrements
exactly when it removed a row, `clear` empties and zeroes. -/
theorem tableCounter_step (t : TableState) (op : TableOp)
    (h : t.counterobj = some (t.rows.length : Int)) :
    (Table.applyOp t op).counterobj = some (((Table.applyOp t op).rows.length : Int)) := by
  cases op with
  | addOp i =>
    simp only [Table.applyOp, Table.addRow, h, Option.map_some]
    simp
  | clearOp =>
    simp only [Table.applyOp, Table.clear, h, Option.map_some]
    simp
  | delOp i =>
    simp only [Table.applyOp]
    cases i with
    | nil => simp [Table.deleteRow, Table.getRowScan, h]
    | cons a rest =>
      simp only [Table.deleteRow, Table.getRowScan]
      cases hf : t.rows.find?
          (fun r => pyEqStrVal (matchStrOf (a :: rest)) (getIndicesVal r.indexes)) with
      | none => exact h
      | some r =>
        show Option.map (fun x => x - 1) t.counterobj =
          some (((eraseFirstFound
            (fun r => pyEqStrVal (matchStrOf (a :: rest)) (getIndicesVal r.indexes))
            t.rows).length : Int))
        rw [h]
        have hl := eraseFirstFound_length _ t.rows r hf
        show some ((t.rows.length : Int) - 1) = _
        congr 1
        omega

/-- The row-count invariant holds after every sequence of table
operations: the counter's externalized value always equals the number
of rows currently stored. -/
theorem tableCounter_runOps (ops : List TableOp) (t : TableState)
    (h : t.counterobj = some (t.rows.length : Int)) :
    (Table.runOps t ops).counterobj = some (((Table.runOps t ops).rows.length : Int)) := by
  induction ops generalizing t with
  | nil => exact h
  | cons op rest ih =>
    show (Table.runOps (Table.applyOp t op) rest).counterobj = _
    exact ih (Table.applyOp t op) (tableCounter_step t op h)

/-- The entry loop of `send_trap` returns without raising whenever every
entry carries the 'oid' and 'val' keys, whatever `snmp_add_var` returns. -/
theorem addTrapEntries_ok (engine : String → String → Char → Nat)
    (traps : List TrapEntry) (h : ∀ e ∈ traps, e.oid ≠ none ∧ e.val ≠ none) :
    addTrapEntries engine traps = .ok () := by
  induction traps with
  | nil => rfl
  | cons e rest ih =>
    obtain ⟨ho, hv⟩ := h e (List.mem_cons_self e rest)
    cases heo : e.oid with
    | none => exact absurd heo ho
    | some vo =>
      cases hev : e.val with
      | none => exact absurd hev hv
      | some vd =>
        simp only [addTrapEntries, heo, hev]
        exact ih (fun e' he' => h e' (List.mem_cons_of_mem e he'))

/-! ## Claim theorems -/

/-- Claim C2 is violated by the code: with the agent in FIRSTCONNECT, a
Warning-priority log event whose severity-stripped, trimmed text does
NOT match the connection-failure pattern ("Failed to ... the agentx
master agent") nevertheless moves the status to CONNECTFAILED (and is
suppressed from the sink), because Python's operator precedence makes
the classifier guard `Warning or (Error and pattern)` instead of
`(Warning or Error) and pattern`. -/
theorem claim_C2_warning_without_pattern_still_fails :
    failMatch (stripSeverityHead (rstripNewlines "NET-SNMP version 5.7.3")) = false ∧
    pyLogHandler .FIRSTCONNECT .warning "NET-SNMP version 5.7.3" =
      (.CONNECTFAILED, none) := by
  constructor
  · decide
  · decide

/-- Claim C3: `start()` is a no-op when the status is already CONNECTED
or RECONNECTING (the result does not depend on the connection primitive
at all); otherwise it moves to FIRSTCONNECT, runs the external
connection-establishment primitive (modelled by `initSnmpEvents`), and
raises the fatal connection error -- whose message embeds the
configured MasterSocket transport target -- exactly when the callback
left the status at CONNECTFAILED during that call. -/
theorem claim_C3_start_idempotent_and_raises
    (st : AgentStatus) (ms : String) (eff : AgentStatus → AgentStatus) :
    ((st = .CONNECTED ∨ st = .RECONNECTING) → startAgent st ms eff = .ok st) ∧
    (st ≠ .CONNECTED → st ≠ .RECONNECTING →
      ((eff .FIRSTCONNECT = .CONNECTFAILED →
          startAgent st ms eff =
            .error ("Error connecting to snmpd instance at \"" ++ ms ++
              "\" -- incorrect \"MasterSocket\" or snmpd not running?")) ∧
       (eff .FIRSTCONNECT ≠ .CONNECTFAILED →
          startAgent st ms eff = .ok (eff .FIRSTCONNECT)))) := by
  constructor
  · intro hst
    unfold startAgent
    rw [if_neg]
    rcases hst with h | h <;> subst h <;> simp
  · intro h1 h2
    constructor
    · intro hfail
      unfold startAgent
      rw [if_pos ⟨h1, h2⟩]
      simp [hfail]
    · intro hok
      unfold startAgent
      rw [if_pos ⟨h1, h2⟩, if_neg hok]

/-- Claim C3 witness: a concrete failing first connect from
REGISTRATION raises the error naming the transport target. -/
theorem claim_C3_witness :
    (AgentStatus.REGISTRATION ≠ .CONNECTED ∧ AgentStatus.REGISTRATION ≠ .RECONNECTING ∧
      (fun _ : AgentStatus => AgentStatus.CONNECTFAILED) .FIRSTCONNECT = .CONNECTFAILED) ∧
    startAgent .REGISTRATION "tcp:localhost:705" (fun _ => .CONNECTFAILED) =
      .error ("Error connecting to snmpd instance at \"" ++ "tcp:localhost:705" ++
        "\" -- incorrect \"MasterSocket\" or snmpd not running?") := by
  refine ⟨⟨by decide, by decide, rfl⟩, ?_⟩
  exact ((claim_C3_start_idempotent_and_raises .REGISTRATION "tcp:localhost:705"
    (fun _ => .CONNECTFAILED)).2 (by decide) (by decide)).1 rfl

/-- Claim C4: whatever the object (any kind, modelled by an arbitrary
payload type), the context, the OID text, the outcome of OID resolution
and the outcome of the engine registration calls, attempting to
register while the status is not REGISTRATION raises the
registration-after-start error and leaves the registry exactly as it
was: `_prepareRegistration` checks the status before anything else. -/
theorem claim_C4_registration_after_start_rejected
    (α : Type) (st : AgentStatus) (r : Registry α) (ctx oidstr : String)
    (obj : α) (oidParse : Except String (List Nat))
    (engineReg : Except String Unit)
    (h : st ≠ .REGISTRATION) :
    registerObj st r ctx oidstr obj oidParse engineReg =
      (r, .error "Attempt to register SNMP object after agent has been started!") := by
  unfold registerObj
  rw [if_pos h]

/-- Claim C4 witness: a concrete rejected registration attempt in
CONNECTED state. -/
theorem claim_C4_witness :
    (AgentStatus.CONNECTED ≠ .REGISTRATION) ∧
    registerObj .CONNECTED ([] : Registry Nat) "" "SNMPv2-MIB::sysDescr.0" 0
        (.ok [1, 3, 6, 1]) (.ok ()) =
      ([], .error "Attempt to register SNMP object after agent has been started!") := by
  refine ⟨by decide, ?_⟩
  exact claim_C4_registration_after_start_rejected Nat .CONNECTED [] ""
    "SNMPv2-MIB::sysDescr.0" 0 (.ok [1, 3, 6, 1]) (.ok ()) (by decide)

/-- Claim C9: an event classified as a connection failure (pattern match
at Warning or Error severity) is suppressed from the log sink when the
status is FIRSTCONNECT, and when the status is RECONNECTING (a failure
after a prior successful connection) it is forwarded to the sink with
its severity label, the status stays RECONNECTING, and nothing is
raised; moreover `start()` in RECONNECTING is a no-op and hence cannot
raise again -- the connection error is raised at most once, at
first-attempt failure. -/
theorem claim_C9_failure_suppression_and_forwarding
    (st : AgentStatus) (msgprio msgtext ms : String) (eff : AgentStatus → AgentStatus)
    (hp : msgprio = "Warning" ∨ msgprio = "Error")
    (hf : failMatch msgtext = true) :
    (st = .FIRSTCONNECT →
      pyLogHandlerCore st msgprio msgtext = (.CONNECTFAILED, none)) ∧
    (st = .RECONNECTING →
      pyLogHandlerCore st msgprio msgtext = (.RECONNECTING, some (msgprio, msgtext))) ∧
    startAgent .RECONNECTING ms eff = .ok .RECONNECTING := by
  have hcond : msgprio = "Warning" ∨ (msgprio = "Error" ∧ failMatch msgtext = true) := by
    rcases hp with h | h
    · exact Or.inl h
    · exact Or.inr ⟨h, hf⟩
  refine ⟨?_, ?_, ?_⟩
  · intro hst; subst hst
    unfold pyLogHandlerCore
    rw [if_pos hcond, if_pos rfl]
  · intro hst; subst hst
    unfold pyLogHandlerCore
    rw [if_pos hcond, if_neg (by decide : ¬ (AgentStatus.RECONNECTING = .FIRSTCONNECT))]
  · unfold startAgent
    rw [if_neg (by decide :
      ¬ (AgentStatus.RECONNECTING ≠ .CONNECTED ∧ AgentStatus.RECONNECTING ≠ .RECONNECTING))]

/-- Claim C9 witness: a concrete connection-failure event in
RECONNECTING is forwarded with its severity label. -/
theorem claim_C9_witness :
    (("Warning" : String) = "Warning" ∨ ("Warning" : String) = "Error") ∧
    failMatch "Failed to connect to the agentx master agent at foo" = true ∧
    pyLogHandlerCore .RECONNECTING "Warning"
        "Failed to connect to the agentx master agent at foo" =
      (.RECONNECTING, some ("Warning", "Failed to connect to the agentx master agent at foo")) := by
  refine ⟨Or.inl rfl, by decide, ?_⟩
  exact (claim_C9_failure_suppression_and_forwarding .RECONNECTING "Warning"
    "Failed to connect to the agentx master agent at foo" "" id
    (Or.inl rfl) (by decide)).2.1 rfl

/-- Claim C10: calling getRow, deleteRow or setRowColumn with an empty
index list raises the IndexError coming from `indices[0]` in
`Table._getRow`, for every table state: getRow does not report
RowNotFoundError, and deleteRow is not a silent no-op. -/
theorem claim_C10_empty_indices_raise_indexerror
    (t : TableState) (colIdx : Nat) (v : IdxVal) :
    Table.getRow t [] = .error .indexError ∧
    Table.deleteRow t [] = .error .indexError ∧
    Table.setRowColumn t [] colIdx v = .error .indexError ∧
    PyErr.indexError ≠ PyErr.agentError "Row not found!" := by
  exact ⟨rfl, rfl, rfl, by decide⟩

/-- The table of claim C1 after `addRow((5,))` on a table with one
integer index column and no row counter. -/
def c1Table : TableState :=
  Table.addRow { rows := [], counterobj := none } [IdxVal.intV 5]

/-- Claim C1 is violated by the code: after `addRow((5,))` the stored
row's canonical index text is "5" (and `_getIndices` converts it to the
int 5), but `getRow((5,))` raises "Row not found!" because `_getRow`
compares the str "5" against that int, which is never equal in Python;
`deleteRow((5,))` likewise finds nothing and leaves the table
unchanged. -/
theorem claim_C1_integer_index_getRow_misses :
    getIndicesRaw [IdxVal.intV 5] = "5" ∧
    getIndicesVal [IdxVal.intV 5] = PyVal.pInt 5 ∧
    matchStrOf [IdxVal.intV 5] = "5" ∧
    Table.getRow c1Table [IdxVal.intV 5] = .error (.agentError "Row not found!") ∧
    Table.deleteRow c1Table [IdxVal.intV 5] = .ok c1Table := by
  refine ⟨by decide, by decide, by decide, rfl, rfl⟩

/-- The table of claim C5: one integer index column, a row counter
initialized to 0 by `Table.__init__`, then three `addRow` calls with
index tuples (1,), (2,) and (3,). -/
def c5Table : TableState :=
  Table.addRow (Table.addRow (Table.addRow
    { rows := [], counterobj := some 0 } [IdxVal.intV 1]) [IdxVal.intV 2]) [IdxVal.intV 3]

/-- Claim C5 is violated by the code on an integer-index table: after 3
`addRow` calls, a row with index tuple (1,) exists, yet `deleteRow((1,))`
fails to find it (the same str-vs-int comparison as claim C1) and
leaves the table -- and the counter -- unchanged at 3 instead of the
claimed 2.  (The invariant "counter = number of stored rows" itself
does hold throughout, see `tableCounter_runOps`: here 3 rows remain.) -/
theorem claim_C5_delete_existing_row_keeps_counter_3 :
    c5Table.rows.map TableRow.indexes = [[IdxVal.intV 1], [IdxVal.intV 2], [IdxVal.intV 3]] ∧
    Table.deleteRow c5Table [IdxVal.intV 1] = .ok c5Table ∧
    c5Table.counterobj = some 3 ∧
    c5Table.rows.length = 3 := by
  refine ⟨by decide, rfl, by decide, by decide⟩

/-- Claim C6: in numeric-only mode `_prepareOID` fails with the
InvalidOidError message exactly when some dot-separated component is
not a non-negative integer, and every successful parse yields one OID
element per component. -/
theorem claim_C6_numeric_oid_parsing (s : String) :
    (prepareOIDNumeric s = .error ("Invalid OID (not using MIB): " ++ s) ↔
      ∃ c ∈ pySplitDot s, parseOidComponent c = none) ∧
    (∀ oid, prepareOIDNumeric s = .ok oid → oid.length = (pySplitDot s).length) := by
  constructor
  · cases ht : traverseComponents (pySplitDot s) with
    | none =>
      simp only [prepareOIDNumeric, ht]
      exact ⟨fun _ => (traverseComponents_eq_none_iff (pySplitDot s)).mp ht,
        fun _ => trivial⟩
    | some parts =>
      simp only [prepareOIDNumeric, ht]
      constructor
      · intro h; cases h
      · intro hex
        have : traverseComponents (pySplitDot s) = none :=
          (traverseComponents_eq_none_iff (pySplitDot s)).mpr hex
        rw [this] at ht; cases ht
  · intro oid hok
    cases ht : traverseComponents (pySplitDot s) with
    | none =>
      simp only [prepareOIDNumeric, ht] at hok
      cases hok
    | some parts =>
      simp only [prepareOIDNumeric, ht] at hok
      cases hok
      exact traverseComponents_length (pySplitDot s) _ ht

/-- Claim C6 witness: "1.2.3" parses to a three-element OID, and
"1.-2.3" (negative component) fails with the InvalidOidError message. -/
theorem claim_C6_witness :
    prepareOIDNumeric "1.2.3" = .ok [1, 2, 3] ∧
    ([1, 2, 3] : List Nat).length = (pySplitDot "1.2.3").length ∧
    prepareOIDNumeric "1.-2.3" = .error ("Invalid OID (not using MIB): " ++ "1.-2.3") := by
  refine ⟨rfl, ?_, rfl⟩
  exact (claim_C6_numeric_oid_parsing "1.2.3").2 [1, 2, 3] rfl

/-- Claim C7 counterexample: an engine that accepts the trap OID but
rejects everything else with result code 7.  Adding a trap entry fails
twice -- the failing `snmp_add_var` call with type 'i' is retried with
the autodetect type '=' -- and `send_trap` still returns successfully,
so the non-zero entry result codes are neither surfaced nor unretried. -/
theorem claim_C7_counterexample :
    (pduAdd (fun o _ _ => if o = "SNMPv2-MIB::snmpTrapOID.0" then 0 else 7)
        "1.3.6.1.4.1.1" "42" (some "i")).1 = 7 ∧
    (pduAdd (fun o _ _ => if o = "SNMPv2-MIB::snmpTrapOID.0" then 0 else 7)
        "1.3.6.1.4.1.1" "42" (some "i")).2 = ['i', '='] ∧
    sendTrapV2 (fun o _ _ => if o = "SNMPv2-MIB::snmpTrapOID.0" then 0 else 7)
        "1.3.6.1.2.1.1"
        [{ oid := some "1.3.6.1.4.1.1", val := some "42", vtype := some "i" }]
        none = .ok () := by
  refine ⟨rfl, rfl, rfl⟩

/-- Claim C7 amended: during trap construction only the result of adding
the trap OID (done with the autodetect type, hence never retried) is
checked and surfaced as an error; the results of adding the (oid, val,
type) entries are discarded, and a failing `snmp_add_var` call made
with a specific type is retried once internally with the autodetect
type '=', whose result becomes the final result code. -/
theorem claim_C7_amended (engine : String → String → Char → Nat)
    (oid : String) (traps : List TrapEntry) (uptime : Option String) :
    ((pduAdd engine "SNMPv2-MIB::snmpTrapOID.0" oid (some "=")).1 ≠ 0 →
      sendTrapV2 engine oid traps uptime =
        .error ("Failed to add " ++ oid ++ " as snmpTrapOID!")) ∧
    ((pduAdd engine "SNMPv2-MIB::snmpTrapOID.0" oid (some "=")).1 = 0 →
      (∀ e ∈ traps, e.oid ≠ none ∧ e.val ≠ none) →
      sendTrapV2 engine oid traps uptime = .ok ()) ∧
    (∀ vo vd (vt : Option String),
      engine vo vd (humanToASNtype vt) ≠ 0 → humanToASNtype vt ≠ '=' →
      pduAdd engine vo vd vt = (engine vo vd '=', [humanToASNtype vt, '='])) := by
  refine ⟨?_, ?_, ?_⟩
  · intro hfail
    unfold sendTrapV2
    rw [if_pos hfail]
  · intro hok hentries
    unfold sendTrapV2
    rw [if_neg (by simp [hok])]
    exact addTrapEntries_ok engine traps hentries
  · intro vo vd vt h1 h2
    unfold pduAdd
    rw [if_neg h1, if_neg h2]

/-- Claim C7 witness: with an engine that always succeeds, a trap with
one well-formed entry is sent without raising. -/
theorem claim_C7_witness :
    (pduAdd (fun _ _ _ => 0) "SNMPv2-MIB::snmpTrapOID.0" "1.3.6.1.2.1.1" (some "=")).1 = 0 ∧
    (∀ e ∈ [({ oid := some "1.3.6.1.4.1.1", val := some "42", vtype := some "i" } : TrapEntry)],
      e.oid ≠ none ∧ e.val ≠ none) ∧
    sendTrapV2 (fun _ _ _ => 0) "1.3.6.1.2.1.1"
        [{ oid := some "1.3.6.1.4.1.1", val := some "42", vtype := some "i" }]
        none = .ok () := by
  refine ⟨rfl, by decide, ?_⟩
  exact (claim_C7_amended (fun _ _ _ => 0) "1.3.6.1.2.1.1"
    [{ oid := some "1.3.6.1.4.1.1", val := some "42", vtype := some "i" }]
    none).2.1 rfl (by decide)

/-- Claim C8 counterexample: on a fresh agent with no successful
registration, a single `getRegistered` query on the unknown context
"public" returns no objects yet adds "public" to the contexts that
`getContexts()` reports, because `self._objs[context]` is a defaultdict
access. -/
theorem claim_C8_counterexample :
    getContexts ([] : Registry Nat) = [] ∧
    (getRegistered ([] : Registry Nat) "public").2 = [] ∧
    getContexts (getRegistered ([] : Registry Nat) "public").1 = ["public"] := by
  refine ⟨rfl, rfl, rfl⟩

/-- Claim C8 amended: `getContexts()` returns exactly the keys of the
registry map; one operation adds a context (at the end, if absent)
exactly when it is a registration that succeeds -- it passes the status
guard, the OID parse, and the engine registration calls that precede
the store, any of which raises before the registry is touched -- or
when it is a `getRegistered` lookup: a lookup on an unknown context
also inserts it, with no registered objects. -/
theorem claim_C8_amended (α : Type) (r : Registry α) (op : RegistryOp α) :
    getContexts (applyRegistryOp r op) =
      match touchedContext op with
      | none => getContexts r
      | some c => if c ∈ getContexts r then getContexts r else getContexts r ++ [c] := by
  cases op with
  | getReg ctx =>
    simp only [applyRegistryOp, touchedContext, getRegistered]
    exact getContexts_registryGetDefault r ctx
  | register st ctx oidstr obj p er =>
    simp only [applyRegistryOp, touchedContext, registerObj]
    by_cases hst : st = .REGISTRATION
    · subst hst
      rw [if_neg (by simp)]
      cases p with
      | error e =>
        rw [if_neg (by simp [isOkE])]
      | ok l =>
        cases er with
        | error e =>
          rw [if_neg (by simp [isOkE])]
        | ok u =>
          rw [if_pos (by simp [isOkE])]
          exact getContexts_registrySet r ctx oidstr obj
    · rw [if_pos hst, if_neg (by simp [hst])]

/-- Contrast for claims C1 and C5: when the index renders as a string
(an octet-string index column), `_getIndices` stays a str and the
str-to-str comparison in `_getRow` works, so `deleteRow` of an existing
row removes it, the counter drops from 3 to 2, and `clear` resets it
to 0 -- the behaviour the specification describes. -/
theorem table_string_index_delete_works :
    Table.deleteRow (Table.addRow (Table.addRow (Table.addRow
        { rows := [], counterobj := some 0 } [IdxVal.strV "a"]) [IdxVal.strV "b"])
        [IdxVal.strV "c"]) [IdxVal.strV "a"] =
      .ok { rows := [{ indexes := [IdxVal.strV "b"], cells := [] },
                     { indexes := [IdxVal.strV "c"], cells := [] }],
            counterobj := some 2 } ∧
    (Table.clear { rows := [{ indexes := [IdxVal.strV "b"], cells := [] }],
                   counterobj := some 1 }).counterobj = some 0 := by
  refine ⟨rfl, rfl⟩
